import Mathlib

/-!
Verification development for the Saros DLMM portfolio analytics engine
(`SarosDLMMService`).  The definitions below are a shallow embedding of the
TypeScript service: JavaScript numbers are modelled by rationals, and the few
places where the code can produce NaN or Infinity (division by a zero total)
are modelled explicitly by the `JsNum` type.  Fallible operations return
`Option` or `Except`; the price oracle and the pool lookup are passed in as
explicit collaborators, and the wall clock is an explicit parameter.
-/

namespace Saros

/-- Risk tier of a position, mirroring the string union used by the service. -/
inductive RiskLevel where
  | Low
  | Medium
  | High
deriving DecidableEq, Repr

/-- The optional metadata block attached to each processed position.
Timestamps are in milliseconds. -/
structure PositionMetadata where
  feeTier : ℚ
  createdAt : ℚ
deriving DecidableEq, Repr

/-- Fully derived position record produced by the engine (the `PositionData`
shape consumed by the UI layer). -/
structure PositionData where
  id : String
  poolAddress : String
  pairName : String
  liquidity : ℚ
  currentValueUSD : ℚ
  initialValueUSD : ℚ
  totalFeesUSD : ℚ
  pnlUSD : ℚ
  pnlPercentage : ℚ
  apy : ℚ
  tokenXAmount : ℚ
  tokenYAmount : ℚ
  tokenXSymbol : String
  tokenYSymbol : String
  priceRangeLower : ℚ
  priceRangeUpper : ℚ
  currentPrice : ℚ
  inRange : Bool
  riskLevel : RiskLevel
  activeBins : Nat
  lastUpdated : ℚ
  metadata : PositionMetadata
deriving DecidableEq, Repr

/-- A single liquidity bin of a raw on-chain position.  The token amounts are
the raw `BN` integer amounts (missing fields are `none`); `binId` is carried by
the SDK but never read by the service. -/
structure RawBin where
  binId : Int
  tokenXAmount : Option Nat
  tokenYAmount : Option Nat
deriving DecidableEq, Repr

/-- A raw position as returned by the ledger SDK.  Only the fields the service
actually reads are modelled; every one of them may be absent at runtime, hence
the `Option`s.  The top-level `tokenXAmount` and `tokenYAmount` fields are the
ones read by the fee calculation. -/
structure RawPosition where
  id : Option String
  lbPair : String
  bins : Option (List RawBin)
  tokenXAmount : Option ℚ
  tokenYAmount : Option ℚ
  createdAt : Option ℚ
deriving DecidableEq, Repr

/-- Pool context for a position (the `lbPair` object).  `feeRate` is the raw
number inside the optional fee-rate field; `binStep` is carried by the pool
metadata but never read by the service. -/
structure LbPair where
  tokenXMint : String
  tokenYMint : String
  feeRate : Option ℚ
  binStep : Option ℚ
deriving DecidableEq, Repr

/-- Token metadata returned by the static resolver. -/
structure TokenMetadata where
  symbol : String
  name : String
  decimals : Nat
deriving DecidableEq, Repr

/-- A JavaScript number that may be NaN or an infinity.  Rational inputs stay
rational under the arithmetic of the service except where a division by a zero
total occurs, which is exactly what this type tracks. -/
inductive JsNum where
  | nan
  | inf
  | ninf
  | fin (q : ℚ)
deriving DecidableEq, Repr

/-- JavaScript division of two finite numbers: division by zero produces a
signed infinity, and 0/0 produces NaN. -/
def jsDivQ (a b : ℚ) : JsNum :=
  if b = 0 then (if a = 0 then .nan else if a > 0 then .inf else .ninf)
  else .fin (a / b)

/-- Multiply a JavaScript number by a finite constant. -/
def JsNum.mulQ : JsNum → ℚ → JsNum
  | .nan, _ => .nan
  | .inf, c => if c = 0 then .nan else if c > 0 then .inf else .ninf
  | .ninf, c => if c = 0 then .nan else if c > 0 then .ninf else .inf
  | .fin q, c => .fin (q * c)

/-- Add a finite constant to a JavaScript number. -/
def JsNum.addQ : JsNum → ℚ → JsNum
  | .nan, _ => .nan
  | .inf, _ => .inf
  | .ninf, _ => .ninf
  | .fin q, c => .fin (q + c)

/-- `Math.min` with a finite first argument: NaN is absorbing. -/
def jsMinQ (c : ℚ) : JsNum → JsNum
  | .nan => .nan
  | .inf => .fin c
  | .ninf => .ninf
  | .fin q => .fin (min c q)

/-- `Math.round`: round half toward positive infinity; NaN and infinities pass
through. -/
def JsNum.jsRound : JsNum → JsNum
  | .nan => .nan
  | .inf => .inf
  | .ninf => .ninf
  | .fin q => .fin ((⌊q + 1/2⌋ : ℤ) : ℚ)

/-- The JavaScript `x || 0` applied to a numeric value: NaN (and zero, which is
already zero) collapse to 0. -/
def jsOrZero : JsNum → JsNum
  | .nan => .fin 0
  | x => x

/-- The JavaScript truthiness default `s || dflt` for an optional string: both
a missing value and the empty string fall back to the default. -/
def jsOrString (s : Option String) (dflt : String) : String :=
  match s with
  | some v => if v = "" then dflt else v
  | none => dflt

/-- The JavaScript truthiness default `t ? t : dflt` for an optional timestamp:
a missing value and the (falsy) zero timestamp both fall back. -/
def optTime (t : Option ℚ) (dflt : ℚ) : ℚ :=
  match t with
  | some v => if v = 0 then dflt else v
  | none => dflt

/-- One entry of the price cache: a USD price and the time it was fetched. -/
structure CacheEntry where
  price : ℚ
  timestamp : ℚ
deriving DecidableEq, Repr

/-- The price cache map, keyed by token mint. -/
abbrev PriceCache := List (String × CacheEntry)

/-- Map lookup on the price cache. -/
def cacheGet (c : PriceCache) (mint : String) : Option CacheEntry :=
  (c.find? (fun kv => kv.1 == mint)).map (fun kv => kv.2)

/-- Map insert/replace on the price cache (`Map.prototype.set`). -/
def cacheSet (c : PriceCache) (mint : String) (e : CacheEntry) : PriceCache :=
  if c.any (fun kv => kv.1 == mint) then
    c.map (fun kv => if kv.1 == mint then (mint, e) else kv)
  else c ++ [(mint, e)]

/-- Outcome of one HTTP query against the price oracle, as seen by
`getTokenPrice`: the fetch itself may reject, the response may be non-OK, the
body may fail to parse as JSON, or it parses and carries an optional price for
the queried mint. -/
inductive OracleResult where
  | netError
  | httpError (status : Nat)
  | jsonError
  | payload (price : Option ℚ)
deriving DecidableEq, Repr

/-- The price extracted from a parsed payload; a missing or zero (falsy) price
falls back to 1.0, mirroring `data.data?.[mint]?.price || 1.0`. -/
def jsPrice (p : Option ℚ) : ℚ :=
  match p with
  | some v => if v = 0 then 1 else v
  | none => 1

/-- Result of one `getTokenPrice` call: the price returned to the caller, the
cache after the call, and whether the oracle was queried. -/
structure PriceResult where
  price : ℚ
  cache : PriceCache
  queriedOracle : Bool
deriving DecidableEq, Repr

/-- The cache-miss path of `getTokenPrice`: query the oracle; a thrown failure
is caught and yields the 1.0 fallback without touching the cache, while a
parsed payload (even one without a price for the mint) is cached. -/
def fetchTokenPrice (cache : PriceCache) (oracle : String → OracleResult)
    (now : ℚ) (mint : String) : PriceResult :=
  match oracle mint with
  | .netError => ⟨1, cache, true⟩
  | .httpError _ => ⟨1, cache, true⟩
  | .jsonError => ⟨1, cache, true⟩
  | .payload p => ⟨jsPrice p, cacheSet cache mint ⟨jsPrice p, now⟩, true⟩

/-- `getTokenPrice`: serve from the cache when the entry is younger than the
30 s TTL, otherwise fetch from the oracle. -/
def getTokenPrice (cache : PriceCache) (oracle : String → OracleResult)
    (now : ℚ) (mint : String) : PriceResult :=
  match cacheGet cache mint with
  | some cached =>
      if now - cached.timestamp < 30000 then ⟨cached.price, cache, false⟩
      else fetchTokenPrice cache oracle now mint
  | none => fetchTokenPrice cache oracle now mint

/-- Static token-metadata table with the UNKNOWN fallback. -/
def getTokenMetadata (mint : String) : TokenMetadata :=
  if mint = "So11111111111111111111111111111111111111112" then
    ⟨"SOL", "Solana", 9⟩
  else if mint = "EPjFWdd5AufqSSqeM2qN1xzybapC8G4wEGGkZwyTDt1v" then
    ⟨"USDC", "USD Coin", 6⟩
  else if mint = "Es9vMFrzaCERmJfrF4H2FYD4KCoNkY11McCe8BenwNYB" then
    ⟨"USDT", "Tether USD", 6⟩
  else ⟨"UNKNOWN", "Unknown Token", 6⟩

/-- Sum of per-bin token amounts (raw amounts scaled by 10^6), with missing
bins or fields contributing zero. -/
def calculateTokenAmounts (position : RawPosition) : ℚ × ℚ :=
  match position.bins with
  | none => (0, 0)
  | some bins =>
      bins.foldl
        (fun acc bin =>
          (acc.1 + ((bin.tokenXAmount.map (fun n => (n : ℚ) / 1000000)).getD 0),
           acc.2 + ((bin.tokenYAmount.map (fun n => (n : ℚ) / 1000000)).getD 0)))
        (0, 0)

/-- Placeholder linear fee model: a 0.10 base fee plus 0.1 percent of the value
read from the top-level token-amount fields of the raw position. -/
def calculateFeesUSD (position : RawPosition) (tokenXPrice tokenYPrice : ℚ) : ℚ :=
  let baseFees : ℚ := 1/10
  let volumeMultiplier : ℚ := 1/1000
  let positionValue :=
    (position.tokenXAmount.getD 0) * tokenXPrice +
    (position.tokenYAmount.getD 0) * tokenYPrice
  baseFees + positionValue * volumeMultiplier

/-- Placeholder price range: the code ignores both arguments and builds a
10 percent band around a hard-coded price of 1.0. -/
def getPriceRange (position : RawPosition) (lbPair : LbPair) : ℚ × ℚ :=
  let currentPrice : ℚ := 1
  let rangePercentage : ℚ := 1/10
  (currentPrice * (1 - rangePercentage), currentPrice * (1 + rangePercentage))

/-- Count of bins holding a nonzero token-X or token-Y amount. -/
def countActiveBins (position : RawPosition) : Nat :=
  match position.bins with
  | some bins =>
      (bins.filter (fun bin =>
        decide (0 < bin.tokenXAmount.getD 0) || decide (0 < bin.tokenYAmount.getD 0))).length
  | none => 0

/-- Annualized yield from fees: zero when there is no principal or no elapsed
time, otherwise the daily fee return compounded over 365 days, floored at 0 and
capped at 1000 percent.  The exact rational power stands in for the float
`Math.pow`. -/
def calculateAPY (position : RawPosition) (feesUSD initialUSD : ℚ) (now : ℚ) : ℚ :=
  if initialUSD ≤ 0 then 0
  else
    let createdAt := optTime position.createdAt (now - 7 * 24 * 60 * 60 * 1000)
    let daysSinceCreation := (now - createdAt) / (1000 * 60 * 60 * 24)
    if daysSinceCreation ≤ 0 then 0
    else
      let dailyReturn := feesUSD / initialUSD / daysSinceCreation
      let annualizedReturn := (1 + dailyReturn) ^ (365 : ℕ) - 1
      max 0 (min (annualizedReturn * 100) 1000)

/-- Statistics-level risk classification: a narrow band close to a boundary is
High, a narrow band or a close boundary alone is Medium, anything else Low. -/
def riskFromStats (rangePercentage minDistance : ℚ) : RiskLevel :=
  if rangePercentage < 5/100 ∧ minDistance < 2/100 then .High
  else if rangePercentage < 5/100 ∨ minDistance < 5/100 then .Medium
  else .Low

/-- Risk classification of a position from its price band and current price.
Rational division stands in for float division; at `lower = 0` or `upper = 0`
the JavaScript code produces infinities or NaN instead (no exception is thrown
there, so the catch-all defaulting to Medium is dead code), and every theorem
below assumes positive bounds. -/
def calculateRiskLevel (lower upper current : ℚ) : RiskLevel :=
  riskFromStats ((upper - lower) / lower)
    (min ((current - lower) / lower) ((upper - current) / upper))

/-- External collaborators and the clock for one processing run: the pool
lookup of the SDK, the price oracle, and the current time in milliseconds. -/
structure ProcessEnv where
  pools : String → Option LbPair
  oracle : String → OracleResult
  now : ℚ

/-- The body of `processPosition` once the pool context has been resolved:
derive every field of the `PositionData` record and thread the price cache
through the two price fetches (token X first, then token Y). -/
def mkProcessedPosition (env : ProcessEnv) (cache : PriceCache)
    (position : RawPosition) (lbPair : LbPair) : PositionData × PriceCache :=
  let tokenXMetadata := getTokenMetadata lbPair.tokenXMint
  let tokenYMetadata := getTokenMetadata lbPair.tokenYMint
  let amounts := calculateTokenAmounts position
  let rX := getTokenPrice cache env.oracle env.now lbPair.tokenXMint
  let rY := getTokenPrice rX.cache env.oracle env.now lbPair.tokenYMint
  let currentValueUSD := amounts.1 * rX.price + amounts.2 * rY.price
  let feesUSD := calculateFeesUSD position rX.price rY.price
  let initialValueUSD := max 0 (currentValueUSD - feesUSD)
  let pnlUSD := currentValueUSD - initialValueUSD + feesUSD
  let pnlPercentage := if initialValueUSD > 0 then pnlUSD / initialValueUSD * 100 else 0
  let apy := calculateAPY position feesUSD initialValueUSD env.now
  let pr := getPriceRange position lbPair
  let currentPrice := rY.price / rX.price
  ({ id := jsOrString position.id ("pos_" ++ toString env.now)
   , poolAddress := position.lbPair
   , pairName := tokenXMetadata.symbol ++ "-" ++ tokenYMetadata.symbol
   , liquidity := currentValueUSD
   , currentValueUSD := currentValueUSD
   , initialValueUSD := initialValueUSD
   , totalFeesUSD := feesUSD
   , pnlUSD := pnlUSD
   , pnlPercentage := pnlPercentage
   , apy := apy
   , tokenXAmount := amounts.1
   , tokenYAmount := amounts.2
   , tokenXSymbol := tokenXMetadata.symbol
   , tokenYSymbol := tokenYMetadata.symbol
   , priceRangeLower := pr.1
   , priceRangeUpper := pr.2
   , currentPrice := currentPrice
   , inRange := decide (pr.1 ≤ currentPrice ∧ currentPrice ≤ pr.2)
   , riskLevel := calculateRiskLevel pr.1 pr.2 currentPrice
   , activeBins := countActiveBins position
   , lastUpdated := env.now
   , metadata :=
      { feeTier := (lbPair.feeRate.map (fun r => r / 1000000)).getD (1/100)
      , createdAt := optTime position.createdAt env.now } }, rY.cache)

/-- `processPosition`: resolve the pool context, failing (`none`, the thrown
`LB Pair not found`) when it is absent, and otherwise build the processed
record.  The failure happens before any price fetch, so a failing item leaves
the cache untouched. -/
def processPosition (env : ProcessEnv) (cache : PriceCache)
    (position : RawPosition) : Option (PositionData × PriceCache) :=
  (env.pools position.lbPair).map (mkProcessedPosition env cache position)

/-- The first hard-coded demo position (SOL-USDC). -/
def mockPos1 (now : ℚ) : PositionData :=
  { id := "mock_pos_1"
  , poolAddress := "So11111111111111111111111111111111111111112"
  , pairName := "SOL-USDC"
  , liquidity := 5000
  , currentValueUSD := 5250
  , initialValueUSD := 5000
  , totalFeesUSD := 125
  , pnlUSD := 375
  , pnlPercentage := 75/10
  , apy := 152/10
  , tokenXAmount := 105/10
  , tokenYAmount := 4200
  , tokenXSymbol := "SOL"
  , tokenYSymbol := "USDC"
  , priceRangeLower := 95
  , priceRangeUpper := 105
  , currentPrice := 100
  , inRange := true
  , riskLevel := .Low
  , activeBins := 12
  , lastUpdated := now
  , metadata := { feeTier := 1/100, createdAt := now - 7 * 24 * 60 * 60 * 1000 } }

/-- The second hard-coded demo position (USDC-USDT). -/
def mockPos2 (now : ℚ) : PositionData :=
  { id := "mock_pos_2"
  , poolAddress := "EPjFWdd5AufqSSqeM2qN1xzybapC8G4wEGGkZwyTDt1v"
  , pairName := "USDC-USDT"
  , liquidity := 2500
  , currentValueUSD := 2480
  , initialValueUSD := 2500
  , totalFeesUSD := 45
  , pnlUSD := 25
  , pnlPercentage := 1
  , apy := 85/10
  , tokenXAmount := 2480
  , tokenYAmount := 2480
  , tokenXSymbol := "USDC"
  , tokenYSymbol := "USDT"
  , priceRangeLower := 995/1000
  , priceRangeUpper := 1005/1000
  , currentPrice := 1002/1000
  , inRange := true
  , riskLevel := .Low
  , activeBins := 8
  , lastUpdated := now
  , metadata := { feeTier := 5/1000, createdAt := now - 14 * 24 * 60 * 60 * 1000 } }

/-- The third hard-coded demo position (SOL-USDT). -/
def mockPos3 (now : ℚ) : PositionData :=
  { id := "mock_pos_3"
  , poolAddress := "Es9vMFrzaCERmJfrF4H2FYD4KCoNkY11McCe8BenwNYB"
  , pairName := "SOL-USDT"
  , liquidity := 3000
  , currentValueUSD := 2850
  , initialValueUSD := 3000
  , totalFeesUSD := 60
  , pnlUSD := -90
  , pnlPercentage := -3
  , apy := 52/10
  , tokenXAmount := 85/10
  , tokenYAmount := 2850
  , tokenXSymbol := "SOL"
  , tokenYSymbol := "USDT"
  , priceRangeLower := 110
  , priceRangeUpper := 120
  , currentPrice := 105
  , inRange := false
  , riskLevel := .High
  , activeBins := 5
  , lastUpdated := now
  , metadata := { feeTier := 2/100, createdAt := now - 3 * 24 * 60 * 60 * 1000 } }

/-- The fixed demo data set returned by the fallback path of the facade. -/
def getMockPositions (now : ℚ) : List PositionData :=
  [mockPos1 now, mockPos2 now, mockPos3 now]

/-- The `metrics` block of a portfolio summary. -/
structure PortfolioMetrics where
  diversificationScore : ℚ
  averagePositionSize : ℚ
  largestPositionSize : ℚ
  volatilityScore : ℚ
  uniqueTokens : Nat
  portfolioAge : Int
deriving DecidableEq, Repr

/-- Portfolio-level summary returned by the aggregator.  `averageAPY` and
`riskScore` are the two fields whose computation can divide by a zero total,
so they carry the NaN-aware number type. -/
structure PortfolioSummary where
  totalValueUSD : ℚ
  totalPnlUSD : ℚ
  totalPnlPercentage : ℚ
  totalFeesUSD : ℚ
  averageAPY : JsNum
  activePositions : Nat
  inRangePositions : Nat
  outOfRangePositions : Nat
  riskScore : JsNum
  topPerformer : String
  worstPerformer : String
  metrics : PortfolioMetrics
deriving DecidableEq, Repr

/-- Maximum of a list of rationals (`Math.max` over a spread); the empty case
is unreachable at its call sites, which all guard on a nonempty list. -/
def listMaxQ : List ℚ → ℚ
  | [] => 0
  | x :: xs => xs.foldl max x

/-- Insertion into the set of seen token symbols. -/
def insertUnique (l : List String) (s : String) : List String :=
  if s ∈ l then l else l ++ [s]

/-- Number of distinct token symbols across both sides of all positions. -/
def countUniqueTokens (positions : List PositionData) : Nat :=
  (positions.foldl
    (fun acc p => insertUnique (insertUnique acc p.tokenXSymbol) p.tokenYSymbol)
    []).length

/-- Composite risk score: concentration (up to 50), share of out-of-range
positions (up to 30) and per-position risk tiers, summed, capped at 100 and
rounded.  When the total value is zero the concentration term is a division by
zero, which NaN-poisons the whole score. -/
def calculatePortfolioRisk (positions : List PositionData) : JsNum :=
  if positions.length = 0 then .fin 0
  else
    let totalValue := positions.foldl (fun s p => s + p.currentValueUSD) 0
    let maxPositionValue := listMaxQ (positions.map (fun p => p.currentValueUSD))
    let concentrationRisk := (jsDivQ maxPositionValue totalValue).mulQ 50
    let outOfRangeCount := (positions.filter (fun p => !p.inRange)).length
    let outOfRangeRisk : ℚ := ((outOfRangeCount : ℚ) / (positions.length : ℚ)) * 30
    let highRiskCount := (positions.filter (fun p => p.riskLevel == .High)).length
    let mediumRiskCount := (positions.filter (fun p => p.riskLevel == .Medium)).length
    let individualRisk : ℚ :=
      ((highRiskCount : ℚ) * 10 + (mediumRiskCount : ℚ) * 5) / (positions.length : ℚ)
    ((jsMinQ 100 ((concentrationRisk.addQ outOfRangeRisk).addQ individualRisk))).jsRound

/-- Diversification score from unique-token and position counts. -/
def calculateDiversificationScore (positions : List PositionData) : ℚ :=
  if positions.length ≤ 1 then 0
  else
    min 100 (min 50 ((countUniqueTokens positions : ℚ) * 10) +
      min 50 ((positions.length : ℚ) * 5))

/-- Volatility score: twice the population standard deviation of the
per-position profit percentages, capped at 100.  The float square root of the
runtime is abstracted as the `sqrtFn` parameter. -/
def calculateVolatilityScore (sqrtFn : ℚ → ℚ) (positions : List PositionData) : ℚ :=
  if positions.length ≤ 1 then 0
  else
    let pnlPercentages := positions.map (fun p => p.pnlPercentage)
    let mean := pnlPercentages.foldl (fun s v => s + v) 0 / (pnlPercentages.length : ℚ)
    let variance :=
      pnlPercentages.foldl (fun s v => s + (v - mean) ^ 2) 0 / (pnlPercentages.length : ℚ)
    min 100 (sqrtFn variance * 2)

/-- Age in whole days of the oldest position (every processed and every demo
position carries a metadata block, so its creation time is always present). -/
def calculatePortfolioAge (now : ℚ) (positions : List PositionData) : Int :=
  match positions with
  | [] => 0
  | p :: ps =>
      let oldest :=
        ps.foldl (fun oldest q =>
          if q.metadata.createdAt < oldest.metadata.createdAt then q else oldest) p
      ⌊(now - oldest.metadata.createdAt) / 86400000⌋

/-- The defined zero-value summary used for empty inputs. -/
def getEmptyPortfolioSummary : PortfolioSummary :=
  { totalValueUSD := 0
  , totalPnlUSD := 0
  , totalPnlPercentage := 0
  , totalFeesUSD := 0
  , averageAPY := .fin 0
  , activePositions := 0
  , inRangePositions := 0
  , outOfRangePositions := 0
  , riskScore := .fin 0
  , topPerformer := ""
  , worstPerformer := ""
  , metrics :=
    { diversificationScore := 0
    , averagePositionSize := 0
    , largestPositionSize := 0
    , volatilityScore := 0
    , uniqueTokens := 0
    , portfolioAge := 0 } }

/-- `getPortfolioSummary`: reduce a list of positions to the aggregate
summary.  The sort for top and worst performer is stable and descending by
profit percentage.  For rational inputs none of the operations throw, so the
catch-all that degrades to the zero summary never fires. -/
def getPortfolioSummary (sqrtFn : ℚ → ℚ) (now : ℚ)
    (positions : List PositionData) : PortfolioSummary :=
  if positions.length = 0 then getEmptyPortfolioSummary
  else
    let totalValueUSD := positions.foldl (fun s p => s + p.currentValueUSD) 0
    let totalPnlUSD := positions.foldl (fun s p => s + p.pnlUSD) 0
    let totalFeesUSD := positions.foldl (fun s p => s + p.totalFeesUSD) 0
    let totalInitialUSD : ℚ := positions.foldl (fun s p => s + p.initialValueUSD) 0
    let totalPnlPercentage :=
      if totalInitialUSD > 0 then totalPnlUSD / totalInitialUSD * 100 else 0
    let weightedAPY :=
      jsDivQ (positions.foldl (fun s p => s + p.apy * p.currentValueUSD) 0) totalValueUSD
    let activePositions := positions.length
    let inRangePositions := (positions.filter (fun p => p.inRange)).length
    let outOfRangePositions := activePositions - inRangePositions
    let sortedByPnl :=
      positions.mergeSort (fun a b => decide (b.pnlPercentage ≤ a.pnlPercentage))
    let topPerformer := (sortedByPnl.head?.map (fun p => p.id)).getD ""
    let worstPerformer := (sortedByPnl.getLast?.map (fun p => p.id)).getD ""
    let riskScore := calculatePortfolioRisk positions
    { totalValueUSD := totalValueUSD
    , totalPnlUSD := totalPnlUSD
    , totalPnlPercentage := totalPnlPercentage
    , totalFeesUSD := totalFeesUSD
    , averageAPY := jsOrZero weightedAPY
    , activePositions := activePositions
    , inRangePositions := inRangePositions
    , outOfRangePositions := outOfRangePositions
    , riskScore := riskScore
    , topPerformer := topPerformer
    , worstPerformer := worstPerformer
    , metrics :=
      { diversificationScore := calculateDiversificationScore positions
      , averagePositionSize := totalValueUSD / (activePositions : ℚ)
      , largestPositionSize := listMaxQ (positions.map (fun p => p.currentValueUSD))
      , volatilityScore := calculateVolatilityScore sqrtFn positions
      , uniqueTokens := countUniqueTokens positions
      , portfolioAge := calculatePortfolioAge now positions } }

/-- Outcome of the address parse plus ledger fetch at the top of
`getUserPositions`: the `PublicKey` constructor may throw, the SDK fetch may
throw, or a list of raw positions comes back. -/
inductive FetchResult where
  | parseError
  | fetchError
  | ok (positions : List RawPosition)
deriving Repr

/-- The body of `getUserPositions` before its catch-all: a thrown parse or
fetch error propagates, an empty fetch yields the demo set, and otherwise each
raw position is processed sequentially with failing items skipped (the cache
threads through the successful ones). -/
def getUserPositionsBody (env : ProcessEnv) (cache : PriceCache)
    (fetch : FetchResult) : Except String (List PositionData × PriceCache) :=
  match fetch with
  | .parseError => .error "Invalid public key input"
  | .fetchError => .error "failed to fetch positions"
  | .ok raws =>
      if raws.length = 0 then .ok (getMockPositions env.now, cache)
      else
        .ok (raws.foldl
          (fun acc raw =>
            match processPosition env acc.2 raw with
            | some r => (acc.1 ++ [r.1], r.2)
            | none => acc)
          ([], cache))

/-- `getUserPositions`: the facade entry point.  Its catch-all converts any
thrown error into the demo data set, so the call never fails. -/
def getUserPositions (env : ProcessEnv) (cache : PriceCache)
    (fetch : FetchResult) : List PositionData × PriceCache :=
  match getUserPositionsBody env cache fetch with
  | .ok r => r
  | .error _ => (getMockPositions env.now, cache)

/-! ## Supporting definitions and lemmas for the claims -/

/-- The profit-and-loss consistency predicate of the specification. -/
def pnlConsistent (p : PositionData) : Prop :=
  p.pnlUSD = p.currentValueUSD - p.initialValueUSD + p.totalFeesUSD ∧
  p.pnlPercentage =
    (if p.initialValueUSD > 0 then p.pnlUSD / p.initialValueUSD * 100 else 0)

/-- Numeric severity of a risk tier, ordering Low below Medium below High. -/
def severity : RiskLevel → Nat
  | .Low => 0
  | .Medium => 1
  | .High => 2

/-- A NaN-aware score lies between two rational bounds. -/
def scoreWithin (x : JsNum) (lo hi : ℚ) : Prop :=
  ∃ q : ℚ, x = JsNum.fin q ∧ lo ≤ q ∧ q ≤ hi

theorem mkProcessedPosition_pnlConsistent (env : ProcessEnv) (cache : PriceCache)
    (position : RawPosition) (lbPair : LbPair) :
    pnlConsistent (mkProcessedPosition env cache position lbPair).1 :=
  ⟨rfl, rfl⟩

theorem mkProcessedPosition_pnl (env : ProcessEnv) (cache : PriceCache)
    (position : RawPosition) (lbPair : LbPair) :
    (mkProcessedPosition env cache position lbPair).1.pnlUSD =
      (mkProcessedPosition env cache position lbPair).1.currentValueUSD -
      (mkProcessedPosition env cache position lbPair).1.initialValueUSD +
      (mkProcessedPosition env cache position lbPair).1.totalFeesUSD :=
  rfl

theorem mkProcessedPosition_initial (env : ProcessEnv) (cache : PriceCache)
    (position : RawPosition) (lbPair : LbPair) :
    (mkProcessedPosition env cache position lbPair).1.initialValueUSD =
      max 0 ((mkProcessedPosition env cache position lbPair).1.currentValueUSD -
        (mkProcessedPosition env cache position lbPair).1.totalFeesUSD) :=
  rfl

theorem mkProcessedPosition_risk (env : ProcessEnv) (cache : PriceCache)
    (position : RawPosition) (lbPair : LbPair) :
    (mkProcessedPosition env cache position lbPair).1.riskLevel =
      calculateRiskLevel
        (mkProcessedPosition env cache position lbPair).1.priceRangeLower
        (mkProcessedPosition env cache position lbPair).1.priceRangeUpper
        (mkProcessedPosition env cache position lbPair).1.currentPrice :=
  rfl

theorem processPosition_eq_some {env : ProcessEnv} {cache : PriceCache}
    {raw : RawPosition} {p : PositionData} {c2 : PriceCache}
    (hp : processPosition env cache raw = some (p, c2)) :
    ∃ lb, env.pools raw.lbPair = some lb ∧
      p = (mkProcessedPosition env cache raw lb).1 := by
  obtain ⟨lb, hlb, heq⟩ := Option.map_eq_some'.mp hp
  exact ⟨lb, hlb, by rw [heq]⟩

/-- Concrete collaborators for the fallback scenarios: no pools resolve and
the oracle is unreachable. -/
def env0 : ProcessEnv :=
  { pools := fun _ => none, oracle := fun _ => OracleResult.netError, now := 0 }

/-- An oracle whose fetch always rejects (network down). -/
def oracleDown : String → OracleResult := fun _ => OracleResult.netError

/-- An oracle that always answers with a parsed payload carrying no price for
the queried mint. -/
def oracleNoPrice : String → OracleResult := fun _ => OracleResult.payload none

/-- An oracle that always answers with a parsed payload carrying price 5. -/
def oracleUp : String → OracleResult := fun _ => OracleResult.payload (some 5)

/-- Pool context for the concrete processing example. -/
def demoPair : LbPair :=
  { tokenXMint := "X", tokenYMint := "Y", feeRate := none, binStep := some 1 }

/-- Alternative pool context with a different bin step. -/
def pairAlt : LbPair :=
  { tokenXMint := "X", tokenYMint := "Y", feeRate := none, binStep := some 25 }

/-- Raw position for the concrete processing example: one bin holding raw
amounts 10^9 and 5 * 10^8, created at the current time. -/
def demoRaw : RawPosition :=
  { id := some "p1", lbPair := "pool1"
  , bins := some [{ binId := 0, tokenXAmount := some 1000000000
                  , tokenYAmount := some 500000000 }]
  , tokenXAmount := none, tokenYAmount := none, createdAt := some 1000 }

/-- Raw position with different bin boundaries than `demoRaw`. -/
def rawAlt : RawPosition :=
  { id := some "p2", lbPair := "pool1"
  , bins := some [{ binId := 12345, tokenXAmount := some 7, tokenYAmount := some 8 }]
  , tokenXAmount := none, tokenYAmount := none, createdAt := some 1000 }

/-- Environment for the concrete processing example: one known pool, an oracle
answering price 2 for every mint, clock at 1000 ms. -/
def demoEnv : ProcessEnv :=
  { pools := fun s => if s = "pool1" then some demoPair else none
  , oracle := fun _ => OracleResult.payload (some 2)
  , now := 1000 }

/-- The record `processPosition` produces for `demoRaw` under `demoEnv`. -/
def demoOut : PositionData :=
  { id := "p1"
  , poolAddress := "pool1"
  , pairName := "UNKNOWN-UNKNOWN"
  , liquidity := 3000
  , currentValueUSD := 3000
  , initialValueUSD := 29999/10
  , totalFeesUSD := 1/10
  , pnlUSD := 1/5
  , pnlPercentage := 200/29999
  , apy := 0
  , tokenXAmount := 1000
  , tokenYAmount := 500
  , tokenXSymbol := "UNKNOWN"
  , tokenYSymbol := "UNKNOWN"
  , priceRangeLower := 9/10
  , priceRangeUpper := 11/10
  , currentPrice := 1
  , inRange := true
  , riskLevel := .Low
  , activeBins := 1
  , lastUpdated := 1000
  , metadata := { feeTier := 1/100, createdAt := 1000 } }

/-- The cache state after processing `demoRaw` under `demoEnv`. -/
def demoCache : PriceCache := [("X", ⟨2, 1000⟩), ("Y", ⟨2, 1000⟩)]

unseal Rat.add Rat.mul Rat.inv Rat.sub in
theorem processPosition_demo :
    processPosition demoEnv [] demoRaw = some (demoOut, demoCache) := by
  decide

/-! ## Claim theorems -/

/-- C1: for every position the engine outputs — whether built by
`processPosition` or taken from the demo set — `pnlUSD` equals
`currentValueUSD - initialValueUSD + totalFeesUSD`, and `pnlPercentage`
equals `pnlUSD / initialValueUSD * 100` when `initialValueUSD > 0` and `0`
otherwise. -/
theorem claim1_pnl_consistency :
    (∀ (env : ProcessEnv) (cache : PriceCache) (raw : RawPosition)
        (p : PositionData) (c2 : PriceCache),
        processPosition env cache raw = some (p, c2) → pnlConsistent p) ∧
    (∀ (now : ℚ) (p : PositionData), p ∈ getMockPositions now → pnlConsistent p) := by
  constructor
  · intro env cache raw p c2 hp
    obtain ⟨lb, _, rfl⟩ := processPosition_eq_some hp
    exact mkProcessedPosition_pnlConsistent env cache raw lb
  · intro now p hp
    simp only [getMockPositions, List.mem_cons, List.not_mem_nil, or_false] at hp
    rcases hp with rfl | rfl | rfl
    · refine ⟨by norm_num [mockPos1], ?_⟩
      show (75/10 : ℚ) = if (5000 : ℚ) > 0 then (375 : ℚ) / 5000 * 100 else 0
      norm_num
    · refine ⟨by norm_num [mockPos2], ?_⟩
      show (1 : ℚ) = if (2500 : ℚ) > 0 then (25 : ℚ) / 2500 * 100 else 0
      norm_num
    · refine ⟨by norm_num [mockPos3], ?_⟩
      show (-3 : ℚ) = if (3000 : ℚ) > 0 then (-90 : ℚ) / 3000 * 100 else 0
      norm_num

/-- C1 witness: the first demo position satisfies the consistency predicate. -/
theorem claim1_pnl_consistency_witness : pnlConsistent (mockPos1 0) :=
  claim1_pnl_consistency.2 0 (mockPos1 0) (by simp [getMockPositions])

/-- C10: every successfully processed position whose computed current value
covers its computed fees reports `pnlUSD = 2 * totalFeesUSD`, because
`initialValueUSD` is defined as `max 0 (currentValueUSD - feesUSD)`. -/
theorem claim10_pnl_double_fees (env : ProcessEnv) (cache : PriceCache)
    (raw : RawPosition) (p : PositionData) (c2 : PriceCache)
    (hp : processPosition env cache raw = some (p, c2))
    (hfee : p.totalFeesUSD ≤ p.currentValueUSD) :
    p.pnlUSD = 2 * p.totalFeesUSD := by
  obtain ⟨lb, _, rfl⟩ := processPosition_eq_some hp
  rw [mkProcessedPosition_pnl, mkProcessedPosition_initial,
    max_eq_right (sub_nonneg.mpr hfee)]
  ring

/-- C10 witness: the concrete processed example has value 3000, fees 0.10, and
its profit is exactly twice its fees. -/
theorem claim10_pnl_double_fees_witness : demoOut.pnlUSD = 2 * demoOut.totalFeesUSD :=
  claim10_pnl_double_fees demoEnv [] demoRaw demoOut demoCache processPosition_demo
    (by norm_num [demoOut])

/-- C5 counterexample: with an empty ledger result the facade returns the demo
set, and its second position carries the hard-coded risk level Low although the
documented thresholds classify its price triple (0.995, 1.005, 1.002) as High. -/
theorem claim5_riskLevel_cex :
    getUserPositions env0 [] (.ok []) = (getMockPositions 0, []) ∧
    (mockPos2 0).riskLevel = RiskLevel.Low ∧
    calculateRiskLevel (mockPos2 0).priceRangeLower (mockPos2 0).priceRangeUpper
      (mockPos2 0).currentPrice = RiskLevel.High := by
  refine ⟨rfl, rfl, ?_⟩
  show riskFromStats ((1005/1000 - 995/1000) / (995/1000))
      (min ((1002/1000 - 995/1000) / (995/1000)) ((1005/1000 - 1002/1000) / (1005/1000))) =
    RiskLevel.High
  norm_num [riskFromStats]

/-- C5 amended: positions built by `processPosition` do carry the risk level
computed from their `(priceRangeLower, priceRangeUpper, currentPrice)` triple
via the documented thresholds — in particular two processed positions with the
same triple carry the same level — but the three demo positions returned on
the fallback path carry hard-coded levels that do not match the thresholds. -/
theorem claim5_riskLevel_amended :
    (∀ (env : ProcessEnv) (cache : PriceCache) (raw : RawPosition)
        (p : PositionData) (c2 : PriceCache),
        processPosition env cache raw = some (p, c2) →
        p.riskLevel =
          calculateRiskLevel p.priceRangeLower p.priceRangeUpper p.currentPrice) ∧
    (∀ (env env2 : ProcessEnv) (cache cache2 : PriceCache) (raw raw2 : RawPosition)
        (p q : PositionData) (c2 c3 : PriceCache),
        processPosition env cache raw = some (p, c2) →
        processPosition env2 cache2 raw2 = some (q, c3) →
        q.priceRangeLower = p.priceRangeLower →
        q.priceRangeUpper = p.priceRangeUpper →
        q.currentPrice = p.currentPrice →
        q.riskLevel = p.riskLevel) := by
  have key : ∀ (env : ProcessEnv) (cache : PriceCache) (raw : RawPosition)
      (p : PositionData) (c2 : PriceCache),
      processPosition env cache raw = some (p, c2) →
      p.riskLevel =
        calculateRiskLevel p.priceRangeLower p.priceRangeUpper p.currentPrice := by
    intro env cache raw p c2 hp
    obtain ⟨lb, _, rfl⟩ := processPosition_eq_some hp
    exact mkProcessedPosition_risk env cache raw lb
  refine ⟨key, ?_⟩
  intro env env2 cache cache2 raw raw2 p q c2 c3 hp hq h1 h2 h3
  rw [key env2 cache2 raw2 q c3 hq, key env cache raw p c2 hp, h1, h2, h3]

/-- C5 witness: the concrete processed example carries the risk level computed
from its own price triple. -/
theorem claim5_riskLevel_amended_witness :
    demoOut.riskLevel =
      calculateRiskLevel demoOut.priceRangeLower demoOut.priceRangeUpper
        demoOut.currentPrice :=
  claim5_riskLevel_amended.1 demoEnv [] demoRaw demoOut demoCache processPosition_demo

/-- C7 counterexample: two raw positions with different bin boundaries, in
pools with different bin steps, get the same price range — the range is not
computed from bin boundaries and bin-step metadata. -/
theorem claim7_priceRange_cex :
    demoRaw.bins ≠ rawAlt.bins ∧ demoPair.binStep ≠ pairAlt.binStep ∧
    getPriceRange demoRaw demoPair = getPriceRange rawAlt pairAlt := by
  refine ⟨by decide, by decide, rfl⟩

/-- C7 amended: `getPriceRange` ignores both the position and the pool context
and always returns the constant placeholder band `(0.9, 1.1)` around a
hard-coded price of 1.0. -/
theorem claim7_priceRange_amended (position : RawPosition) (lbPair : LbPair) :
    getPriceRange position lbPair = (9/10, 11/10) := by
  show ((1 : ℚ) * (1 - 1/10), (1 : ℚ) * (1 + 1/10)) = (9/10, 11/10)
  norm_num

/-- C7 witness: the constant range at the concrete example inputs. -/
theorem claim7_priceRange_amended_witness :
    getPriceRange demoRaw demoPair = (9/10, 11/10) :=
  claim7_priceRange_amended demoRaw demoPair

/-- C3: when the ledger fetch throws, or returns zero raw positions, the
facade returns exactly the three documented demo positions in order, with the
documented pair names, values, profits, risk levels and range flags. -/
theorem claim3_mock_fallback (env : ProcessEnv) (cache : PriceCache) (now : ℚ) :
    getUserPositions env cache .fetchError = (getMockPositions env.now, cache) ∧
    getUserPositions env cache (.ok []) = (getMockPositions env.now, cache) ∧
    getMockPositions now = [mockPos1 now, mockPos2 now, mockPos3 now] ∧
    (mockPos1 now).id = "mock_pos_1" ∧ (mockPos1 now).pairName = "SOL-USDC" ∧
    (mockPos1 now).currentValueUSD = 5250 ∧ (mockPos1 now).pnlUSD = 375 ∧
    (mockPos1 now).riskLevel = RiskLevel.Low ∧ (mockPos1 now).inRange = true ∧
    (mockPos2 now).id = "mock_pos_2" ∧ (mockPos2 now).pairName = "USDC-USDT" ∧
    (mockPos2 now).currentValueUSD = 2480 ∧ (mockPos2 now).pnlUSD = 25 ∧
    (mockPos2 now).riskLevel = RiskLevel.Low ∧ (mockPos2 now).inRange = true ∧
    (mockPos3 now).id = "mock_pos_3" ∧ (mockPos3 now).pairName = "SOL-USDT" ∧
    (mockPos3 now).currentValueUSD = 2850 ∧ (mockPos3 now).pnlUSD = -90 ∧
    (mockPos3 now).riskLevel = RiskLevel.High ∧ (mockPos3 now).inRange = false :=
  ⟨rfl, rfl, rfl, rfl, rfl, rfl, rfl, rfl, rfl, rfl, rfl, rfl, rfl, rfl, rfl,
   rfl, rfl, rfl, rfl, rfl, rfl⟩

/-- C3 witness: the fetch-error fallback at concrete inputs. -/
theorem claim3_mock_fallback_witness :
    getUserPositions env0 [] .fetchError = (getMockPositions 0, []) :=
  (claim3_mock_fallback env0 [] 0).1

/-- C6 counterexample: on a malformed wallet address the body of the facade
does throw from address parsing, but the catch-all of `getUserPositions`
absorbs the error and returns the demo positions — no error reaches the
caller. -/
theorem claim6_parse_error_cex :
    getUserPositionsBody env0 [] .parseError = .error "Invalid public key input" ∧
    getUserPositions env0 [] .parseError = (getMockPositions 0, []) :=
  ⟨rfl, rfl⟩

/-- C6 amended: the address-parsing error raised inside `getUserPositions` is
caught by its catch-all like every other error, and the call returns the demo
positions instead of surfacing the error. -/
theorem claim6_parse_error_amended (env : ProcessEnv) (cache : PriceCache) :
    getUserPositionsBody env cache .parseError = .error "Invalid public key input" ∧
    getUserPositions env cache .parseError = (getMockPositions env.now, cache) :=
  ⟨rfl, rfl⟩

/-- C6 witness: the amended behaviour at concrete inputs. -/
theorem claim6_parse_error_amended_witness :
    getUserPositions env0 [] .parseError = (getMockPositions 0, []) :=
  (claim6_parse_error_amended env0 []).2

theorem cacheGet_cacheSet (c : PriceCache) (mint : String) (e : CacheEntry) :
    cacheGet (cacheSet c mint e) mint = some e := by
  induction c with
  | nil => simp [cacheSet, cacheGet]
  | cons kv t ih =>
      by_cases hk : kv.1 == mint
      · have hk' : kv.1 = mint := by simpa using hk
        simp [cacheSet, cacheGet, hk', List.find?]
      · have hk' : kv.1 ≠ mint := by simpa using hk
        by_cases ht : t.any (fun kv => kv.1 == mint)
        · have h1 : cacheSet (kv :: t) mint e = kv :: cacheSet t mint e := by
            simp only [cacheSet, List.any_cons, hk, Bool.false_or, ht, if_true,
              List.map_cons, if_neg hk']
            simp [hk]
          rw [h1]
          simpa [cacheGet, List.find?, hk] using ih
        · have h1 : cacheSet (kv :: t) mint e = kv :: cacheSet t mint e := by
            simp only [cacheSet, List.any_cons, hk, Bool.false_or, ht, if_false,
              List.cons_append]
            simp [ht]
          rw [h1]
          simpa [cacheGet, List.find?, hk] using ih

/-- C2 counterexample: when the oracle payload parses but carries no price for
the mint, `getTokenPrice` stores the fallback entry in the cache, and a second
call 25 s later is served from the cache without querying the oracle again. -/
theorem claim2_price_fallback_cex :
    (getTokenPrice [] oracleNoPrice 0 "mintA").cache = [("mintA", ⟨1, 0⟩)] ∧
    (getTokenPrice [("mintA", ⟨1, 0⟩)] oracleNoPrice 25000 "mintA").queriedOracle
      = false := by
  constructor
  · rfl
  · show (if (25000 : ℚ) - 0 < 30000 then
        (⟨(1 : ℚ), [("mintA", ⟨1, 0⟩)], false⟩ : PriceResult)
      else fetchTokenPrice [("mintA", ⟨1, 0⟩)] oracleNoPrice 25000 "mintA").queriedOracle
      = false
    norm_num

/-- C2 amended: on every thrown oracle failure — network error, non-OK
response, or unparseable body — `getTokenPrice` returns the 1.0 fallback and
leaves the cache unchanged, so the next call retries; but when the payload
parses and merely lacks a price for the id, it returns 1.0 and does store a
cache entry for the id, so the next call within the TTL does not query the
oracle. -/
theorem claim2_price_fallback_amended (cache : PriceCache)
    (oracle : String → OracleResult) (now : ℚ) (mint : String)
    (hmiss : cacheGet cache mint = none) :
    (oracle mint = .netError →
      getTokenPrice cache oracle now mint = ⟨1, cache, true⟩) ∧
    (∀ s, oracle mint = .httpError s →
      getTokenPrice cache oracle now mint = ⟨1, cache, true⟩) ∧
    (oracle mint = .jsonError →
      getTokenPrice cache oracle now mint = ⟨1, cache, true⟩) ∧
    (oracle mint = .payload none →
      getTokenPrice cache oracle now mint
        = ⟨1, cacheSet cache mint ⟨1, now⟩, true⟩) := by
  refine ⟨fun h => ?_, fun s h => ?_, fun h => ?_, fun h => ?_⟩ <;>
    simp [getTokenPrice, fetchTokenPrice, hmiss, h, jsPrice]

/-- C2 witness: the network-error branch of the amended claim at concrete
inputs. -/
theorem claim2_price_fallback_amended_witness :
    getTokenPrice [] oracleDown 0 "m" = ⟨1, [], true⟩ :=
  (claim2_price_fallback_amended [] oracleDown 0 "m" rfl).1 rfl

/-- C8 counterexample: with the oracle unreachable, two calls for the same
token one second apart both query the oracle — the failure is not cached, so
the second call is not served from the cache. -/
theorem claim8_cache_single_query_cex :
    (getTokenPrice [] oracleDown 0 "m").queriedOracle = true ∧
    (getTokenPrice (getTokenPrice [] oracleDown 0 "m").cache oracleDown 1000 "m").queriedOracle
      = true :=
  ⟨rfl, rfl⟩

/-- C8 amended: two `getTokenPrice` calls for the same token within 30 s make
at most one oracle query provided the oracle answer for that token is a parsed
payload; when the first query throws instead, nothing is cached and the second
call queries again. -/
theorem claim8_cache_single_query_amended (cache : PriceCache)
    (oracle : String → OracleResult) (now1 now2 : ℚ) (mint : String)
    (v : Option ℚ) (hp : oracle mint = .payload v)
    (h30 : now2 - now1 < 30000) :
    (getTokenPrice cache oracle now1 mint).queriedOracle = false ∨
    (getTokenPrice (getTokenPrice cache oracle now1 mint).cache oracle now2 mint).queriedOracle
      = false := by
  have hfetch : fetchTokenPrice cache oracle now1 mint
      = ⟨jsPrice v, cacheSet cache mint ⟨jsPrice v, now1⟩, true⟩ := by
    simp [fetchTokenPrice, hp]
  have hsecond : ∀ c2 : PriceCache, c2 = cacheSet cache mint ⟨jsPrice v, now1⟩ →
      (getTokenPrice c2 oracle now2 mint).queriedOracle = false := by
    intro c2 hc2
    have hhit : cacheGet c2 mint = some ⟨jsPrice v, now1⟩ := by
      rw [hc2]; exact cacheGet_cacheSet cache mint _
    simp [getTokenPrice, hhit, h30]
  rcases hc : cacheGet cache mint with _ | e
  · right
    have h1 : getTokenPrice cache oracle now1 mint
        = ⟨jsPrice v, cacheSet cache mint ⟨jsPrice v, now1⟩, true⟩ := by
      simp [getTokenPrice, hc, hfetch]
    rw [h1]
    exact hsecond _ rfl
  · by_cases hfresh : now1 - e.timestamp < 30000
    · left
      simp [getTokenPrice, hc, hfresh]
    · right
      have h1 : getTokenPrice cache oracle now1 mint
          = ⟨jsPrice v, cacheSet cache mint ⟨jsPrice v, now1⟩, true⟩ := by
        simp [getTokenPrice, hc, hfresh, hfetch]
      rw [h1]
      exact hsecond _ rfl

/-- C8 witness: with a healthy oracle, the second of two calls 100 ms apart is
served from the cache. -/
theorem claim8_cache_single_query_amended_witness :
    (getTokenPrice [] oracleUp 0 "m").queriedOracle = false ∨
    (getTokenPrice (getTokenPrice [] oracleUp 0 "m").cache oracleUp 100 "m").queriedOracle
      = false :=
  claim8_cache_single_query_amended [] oracleUp 0 100 "m" (some 5) rfl (by norm_num)

theorem riskFromStats_mono (a b a2 b2 : ℚ) (ha : a2 ≤ a) (hb : b2 ≤ b) :
    severity (riskFromStats a b) ≤ severity (riskFromStats a2 b2) := by
  by_cases h1 : a < 5/100 ∧ b < 2/100
  · have h1' : a2 < 5/100 ∧ b2 < 2/100 :=
      ⟨lt_of_le_of_lt ha h1.1, lt_of_le_of_lt hb h1.2⟩
    simp [riskFromStats, h1, h1']
  · by_cases h2 : a < 5/100 ∨ b < 5/100
    · have h2' : a2 < 5/100 ∨ b2 < 5/100 :=
        h2.imp (lt_of_le_of_lt ha) (lt_of_le_of_lt hb)
      rw [riskFromStats, if_neg h1, if_pos h2, riskFromStats]
      by_cases h3 : a2 < 5/100 ∧ b2 < 2/100
      · rw [if_pos h3]; exact Nat.le_succ 1
      · rw [if_neg h3, if_pos h2']
    · rw [riskFromStats, if_neg h1, if_neg h2]
      exact Nat.zero_le _

/-- C9: shrinking the price band toward the current price never decreases the
risk severity: for positive bounds with
`lower ≤ lower2 ≤ current ≤ upper2 ≤ upper`, the risk level of the shrunk band
is at least as severe as that of the original band under the ordering
Low < Medium < High. -/
theorem claim9_risk_monotone (lower upper current lower2 upper2 : ℚ)
    (h0 : 0 < lower) (h1 : lower ≤ lower2) (h2 : lower2 ≤ current)
    (h3 : current ≤ upper2) (h4 : upper2 ≤ upper) :
    severity (calculateRiskLevel lower upper current) ≤
      severity (calculateRiskLevel lower2 upper2 current) := by
  have hl2 : 0 < lower2 := h0.trans_le h1
  have hc : 0 < current := hl2.trans_le h2
  have hu2 : 0 < upper2 := hc.trans_le h3
  have hu : 0 < upper := hu2.trans_le h4
  apply riskFromStats_mono
  · rw [div_le_div_iff₀ hl2 h0]
    nlinarith [mul_le_mul_of_nonneg_right h4 h0.le,
      mul_le_mul_of_nonneg_left h1 hu.le]
  · apply min_le_min
    · rw [div_le_div_iff₀ hl2 h0]
      nlinarith [mul_le_mul_of_nonneg_left h1 hc.le]
    · rw [div_le_div_iff₀ hu2 hu]
      nlinarith [mul_le_mul_of_nonneg_left h4 hc.le]

/-- C9 witness: shrinking the band (1, 2) to (5/4, 7/4) around the price 3/2
does not decrease severity. -/
theorem claim9_risk_monotone_witness :
    severity (calculateRiskLevel 1 2 (3/2)) ≤
      severity (calculateRiskLevel (5/4) (7/4) (3/2)) :=
  claim9_risk_monotone 1 2 (3/2) (5/4) (7/4) (by norm_num) (by norm_num)
    (by norm_num) (by norm_num) (by norm_num)

/-- A position whose current value is zero, as in a fully drained pool. -/
def zeroValuePosition : PositionData :=
  { id := "zero_pos"
  , poolAddress := "pool0"
  , pairName := "SOL-USDC"
  , liquidity := 0
  , currentValueUSD := 0
  , initialValueUSD := 0
  , totalFeesUSD := 0
  , pnlUSD := 0
  , pnlPercentage := 0
  , apy := 0
  , tokenXAmount := 0
  , tokenYAmount := 0
  , tokenXSymbol := "SOL"
  , tokenYSymbol := "USDC"
  , priceRangeLower := 95
  , priceRangeUpper := 105
  , currentPrice := 100
  , inRange := true
  , riskLevel := .Low
  , activeBins := 0
  , lastUpdated := 0
  , metadata := { feeTier := 1/100, createdAt := 0 } }

/-- C4: on a nonempty portfolio whose positions all have zero current value,
the concentration term divides zero by zero, so the risk score of the summary
is NaN — not a number between 0 and 100 — contradicting the documented
`[0, 100]` range (the catch-all never fires because no exception is thrown). -/
theorem claim4_riskScore_nan :
    (getPortfolioSummary (fun q => q) 0 [zeroValuePosition]).riskScore
      = JsNum.nan ∧
    ¬ scoreWithin
        ((getPortfolioSummary (fun q => q) 0 [zeroValuePosition]).riskScore)
        0 100 := by
  have hnan : (getPortfolioSummary (fun q => q) 0 [zeroValuePosition]).riskScore
      = JsNum.nan := by
    have hrisk : calculatePortfolioRisk [zeroValuePosition] = JsNum.nan := by
      show (jsMinQ 100
        ((((jsDivQ (listMaxQ [zeroValuePosition.currentValueUSD])
            ([zeroValuePosition].foldl (fun s p => s + p.currentValueUSD) 0)).mulQ
          50).addQ _).addQ _)).jsRound = JsNum.nan
      norm_num [listMaxQ, zeroValuePosition, jsDivQ, JsNum.mulQ, JsNum.addQ,
        jsMinQ, JsNum.jsRound]
    show calculatePortfolioRisk [zeroValuePosition] = JsNum.nan
    exact hrisk
  refine ⟨hnan, ?_⟩
  rintro ⟨q, hq, -, -⟩
  rw [hnan] at hq
  exact JsNum.noConfusion hq

end Saros
